import Mathlib

/- A verification development for the air-hockey SAC experiment script
(`air_hockey.py`).

The script defines two torch modules (`CriticNetwork`, `ActorNetwork`) and an
`experiment` driver that wires them into an external SAC trainer.  Tensors are
embedded below as a shape list over ℕ together with flat rational data (the
script's `.float()` casts are the identity on exact rationals); the two
`forward` passes are embedded value-exactly; the constructors' weight/bias
initialisation calls are embedded symbolically as named initialisers; and the
driver is embedded as a pure function producing the ordered trace of framework
calls it performs, together with a model of the replay-buffer/update state of
the external trainer. -/

namespace AirHockey

/-! ## Flat tensors

A torch tensor is embedded as its shape together with its flat
(row-major) data.  `chunk k xs` splits the flat data into the rows of
length `k` that the last dimension induces; it is written with a
structurally recursive worker so that it evaluates inside the kernel. -/

def dot (a b : List ℚ) : ℚ := (List.zipWith (fun x y => x * y) a b).sum

def chunkGo (k : ℕ) : List ℚ → List ℚ → ℕ → List (List ℚ)
  | [], cur, _ => [cur.reverse]
  | x :: xs, cur, 0 => cur.reverse :: chunkGo k xs [x] k
  | x :: xs, cur, r + 1 => chunkGo k xs (x :: cur) r

def chunk (k : ℕ) (xs : List ℚ) : List (List ℚ) :=
  match k, xs with
  | _, [] => []
  | 0, _ :: _ => []
  | k + 1, x :: xs => chunkGo k xs [x] k

structure Tensor where
  shape : List ℕ
  data : List ℚ
deriving DecidableEq

/-- `F.relu`, elementwise on the flat data. -/
def Tensor.relu (t : Tensor) : Tensor :=
  ⟨t.shape, t.data.map (fun q => max q 0)⟩

/-- `torch.squeeze(t)`: remove every dimension of size 1. -/
def Tensor.squeeze (t : Tensor) : Tensor :=
  ⟨t.shape.filter (fun n => n != 1), t.data⟩

/-- `torch.squeeze(t, d)`: remove dimension `d` when it exists and has size 1;
leave the tensor unchanged when it exists with another size; error (as torch
does, with an index error) when `d` is out of range. -/
def Tensor.squeezeDim (t : Tensor) (d : ℕ) : Option Tensor :=
  if h : d < t.shape.length then
    if t.shape.get ⟨d, h⟩ = 1 then some ⟨t.shape.eraseIdx d, t.data⟩ else some t
  else none

/-- `torch.cat((a, b), dim=1)` for 2-D tensors: defined when both arguments
are 2-D with the same leading (batch) dimension, concatenating row by row. -/
def Tensor.cat2 (a b : Tensor) : Option Tensor :=
  match a.shape, b.shape with
  | [m, k], [m', k'] =>
      if m = m' then
        some ⟨[m, k + k'],
          (List.zipWith (fun r s => r ++ s) (chunk k a.data) (chunk k' b.data)).flatten⟩
      else none
  | _, _ => none

/-! ## `nn.Linear` and the two network modules -/

/-- The parameters of one `nn.Linear(inF, weight.length)` layer: the weight
matrix is a list of `weight.length` rows of `inF` entries and the bias a
vector of `weight.length` entries. -/
structure Linear where
  inF : ℕ
  weight : List (List ℚ)
  bias : List ℚ
deriving DecidableEq

/-- One affine map `W x + b` on a single feature vector. -/
def Linear.applyVec (l : Linear) (x : List ℚ) : List ℚ :=
  List.zipWith (fun wr c => dot wr x + c) l.weight l.bias

/-- Applying `nn.Linear` to a tensor: the last dimension must equal the
layer's input width (otherwise torch raises); it is mapped through the affine
map row by row, and is replaced by the layer's output width in the shape. -/
def Linear.apply (l : Linear) (t : Tensor) : Option Tensor :=
  match t.shape.getLast? with
  | none => none
  | some k =>
      if k = l.inF then
        some ⟨t.shape.dropLast ++ [l.weight.length],
          ((chunk l.inF t.data).map l.applyVec).flatten⟩
      else none

/-- The layer dimensions the constructors establish:
`nn.Linear(nIn, nOut)` has an `nOut × nIn` weight and an `nOut` bias. -/
def Linear.hasDims (l : Linear) (nIn nOut : ℕ) : Prop :=
  l.inF = nIn ∧ l.weight.length = nOut ∧ l.bias.length = nOut ∧
    ∀ r ∈ l.weight, r.length = nIn

instance (l : Linear) (nIn nOut : ℕ) : Decidable (l.hasDims nIn nOut) :=
  inferInstanceAs (Decidable (l.inF = nIn ∧ l.weight.length = nOut ∧
    l.bias.length = nOut ∧ ∀ r ∈ l.weight, r.length = nIn))

/-- The parameters of `CriticNetwork`: layers `_h1`, `_h2`, `_h3`. -/
structure CriticNetwork where
  h1 : Linear
  h2 : Linear
  h3 : Linear
deriving DecidableEq

/-- The parameters of `ActorNetwork`: layers `_h1`, `_h2`, `_h3`. -/
structure ActorNetwork where
  h1 : Linear
  h2 : Linear
  h3 : Linear
deriving DecidableEq

/-- `CriticNetwork(input_shape=(nInput,), output_shape=(nOutput,),
n_features=nFeatures)` establishes these layer dimensions. -/
def CriticNetwork.hasDims (n : CriticNetwork) (nInput nFeatures nOutput : ℕ) : Prop :=
  n.h1.hasDims nInput nFeatures ∧ n.h2.hasDims nFeatures nFeatures ∧
    n.h3.hasDims nFeatures nOutput

instance (n : CriticNetwork) (a b c : ℕ) : Decidable (n.hasDims a b c) :=
  inferInstanceAs (Decidable (_ ∧ _ ∧ _))

def ActorNetwork.hasDims (n : ActorNetwork) (nInput nFeatures nOutput : ℕ) : Prop :=
  n.h1.hasDims nInput nFeatures ∧ n.h2.hasDims nFeatures nFeatures ∧
    n.h3.hasDims nFeatures nOutput

instance (n : ActorNetwork) (a b c : ℕ) : Decidable (n.hasDims a b c) :=
  inferInstanceAs (Decidable (_ ∧ _ ∧ _))

/-- `CriticNetwork.forward(state, action)`:
`state_action = torch.cat((state.float(), action.float()), dim=1)`,
two relu layers, a linear output layer, then `torch.squeeze`. -/
def CriticNetwork.forward (n : CriticNetwork) (state action : Tensor) : Option Tensor :=
  (Tensor.cat2 state action).bind fun sa =>
  (n.h1.apply sa).bind fun z1 =>
  (n.h2.apply z1.relu).bind fun z2 =>
  (n.h3.apply z2.relu).map Tensor.squeeze

/-- `ActorNetwork.forward(state)`:
`torch.squeeze(state, 1)`, two relu layers, then the linear output layer. -/
def ActorNetwork.forward (n : ActorNetwork) (state : Tensor) : Option Tensor :=
  (state.squeezeDim 1).bind fun s =>
  (n.h1.apply s).bind fun z1 =>
  (n.h2.apply z1.relu).bind fun z2 =>
  n.h3.apply z2.relu

/-! ## The constructors' initialisation calls

The constructors build three `nn.Linear` layers and then call
`nn.init.xavier_uniform_` on the three *weights* only, with
`calculate_gain('relu')` for `_h1`, `_h2` and `calculate_gain('linear')` for
`_h3`.  The initialisers are embedded symbolically: which named initialisation
scheme each parameter tensor ends up drawn from. -/

inductive GainKind where
  | relu
  | linear
deriving DecidableEq

/-- The square of `nn.init.calculate_gain`: `relu ↦ √2`, `linear ↦ 1`. -/
def calculateGainSq : GainKind → ℚ
  | .relu => 2
  | .linear => 1

/-- The initialisation scheme a parameter tensor is drawn from.
`kaimingUniformDefault` and `uniformFanInDefault` are the schemes
`nn.Linear.reset_parameters` applies by default to weight and bias
respectively (the bias default is uniform on `[-1/√fanIn, 1/√fanIn]`, which
is not identically zero); `zeros` is all-zero initialisation (which nothing
in this script applies); `xavierUniform g` is `nn.init.xavier_uniform_` with
gain `g`. -/
inductive ParamInit where
  | kaimingUniformDefault
  | uniformFanInDefault
  | zeros
  | xavierUniform (gain : GainKind)
deriving DecidableEq

structure LinearInit where
  fanIn : ℕ
  fanOut : ℕ
  weightInit : ParamInit
  biasInit : ParamInit
deriving DecidableEq

/-- What `nn.Linear(fanIn, fanOut)` leaves behind before any explicit
re-initialisation. -/
def nnLinearInit (fanIn fanOut : ℕ) : LinearInit :=
  ⟨fanIn, fanOut, ParamInit.kaimingUniformDefault, ParamInit.uniformFanInDefault⟩

/-- `nn.init.xavier_uniform_(l.weight, gain=g)`: replaces the weight's
initialisation scheme and touches nothing else. -/
def xavierUniformWeight (l : LinearInit) (g : GainKind) : LinearInit :=
  { l with weightInit := ParamInit.xavierUniform g }

structure NetworkInit where
  h1 : LinearInit
  h2 : LinearInit
  h3 : LinearInit
deriving DecidableEq

/-- The initialisation effect of `CriticNetwork.__init__(input_shape,
output_shape, n_features)`: `n_input = input_shape[-1]`,
`n_output = output_shape[0]`, three `nn.Linear` layers, then
`xavier_uniform_` with relu gain on `_h1.weight`, `_h2.weight` and with
linear gain on `_h3.weight`. -/
def criticNetworkInit (inputShape outputShape : List ℕ) (nFeatures : ℕ) : NetworkInit :=
  let nInput := inputShape.getLastD 0
  let nOutput := outputShape.headD 0
  ⟨xavierUniformWeight (nnLinearInit nInput nFeatures) GainKind.relu,
   xavierUniformWeight (nnLinearInit nFeatures nFeatures) GainKind.relu,
   xavierUniformWeight (nnLinearInit nFeatures nOutput) GainKind.linear⟩

/-- The initialisation effect of `ActorNetwork.__init__`, identical in
structure to the critic's. -/
def actorNetworkInit (inputShape outputShape : List ℕ) (nFeatures : ℕ) : NetworkInit :=
  let nInput := inputShape.getLastD 0
  let nOutput := outputShape.headD 0
  ⟨xavierUniformWeight (nnLinearInit nInput nFeatures) GainKind.relu,
   xavierUniformWeight (nnLinearInit nFeatures nFeatures) GainKind.relu,
   xavierUniformWeight (nnLinearInit nFeatures nOutput) GainKind.linear⟩

/-! ## The experiment driver

`experiment` is embedded as a pure function from its configuration to the
ordered trace of calls it makes on the external framework, together with the
final replay-buffer/update state of the trainer (`none` when the run raises
`NotImplementedError` on an unknown environment name). -/

/-- One framework call made by the driver, in program order. -/
inductive Event where
  | seedReset
  | logInfo (msg : String)
  | envConstructed (envLabel : String)
  | networkConfig (role : String) (inputShape outputShape : List ℕ)
  | agentConstructed
  | agentLoaded (path : String)
  | evaluateEpisodes (n : ℕ) (render : Bool)
  | evaluateSteps (n : ℕ) (render : Bool)
  | epochLog (idx : ℕ)
  | saveAgent (path : String)
  | learnSteps (nSteps stepsPerFit : ℕ)
  | waitForInput
deriving DecidableEq

def isLearn : Event → Bool
  | .learnSteps _ _ => true
  | _ => false

def isSave : Event → Bool
  | .saveAgent _ => true
  | _ => false

def isEpochLog : Event → Bool
  | .epochLog _ => true
  | _ => false

def isEnvConstructed : Event → Bool
  | .envConstructed _ => true
  | _ => false

def isNetworkConfig : Event → Bool
  | .networkConfig _ _ _ => true
  | _ => false

/-- The hard-coded settings of `experiment`. -/
def initialReplaySize : ℕ := 5000

def maxReplaySize : ℕ := 200000

def batchSize : ℕ := 64

def nFeaturesSetting : ℕ := 128

def warmupTransitions : ℕ := 10000

def horizonSetting : ℕ := 120

def gammaSetting : ℚ := 99 / 100

/-- The replay-buffer size and the number of parameter-update steps the
external trainer has performed in this run. -/
structure DriverState where
  replaySize : ℕ
  paramUpdates : ℕ
deriving DecidableEq

/-- Modelled from the spec: the external framework's fit step, which this
repository only calls but does not implement.  One fit receives `addCount`
fresh transitions: they are appended to the replay buffer (capacity
`maxReplaySize`), and a parameter update is performed only once the
stored-transition count exceeds the buffer's minimum threshold
`initialReplaySize` — so the warm-up phase, which exactly fills that
threshold, performs no update. -/
def fitOnce (st : DriverState) (addCount : ℕ) : DriverState :=
  let sz := min (st.replaySize + addCount) maxReplaySize
  if initialReplaySize < sz then ⟨sz, st.paramUpdates + 1⟩ else ⟨sz, st.paramUpdates⟩

/-- Modelled from the spec: `core.learn(n_steps, n_steps_per_fit)` collects
`nSteps` transitions and calls the agent's fit once per `stepsPerFit` of
them. -/
def learnModel (st : DriverState) (nSteps stepsPerFit : ℕ) : DriverState :=
  (List.range (nSteps / stepsPerFit)).foldl (fun s _ => fitOnce s stepsPerFit) st

/-- The trace of the epoch loop: epoch `n+1` runs
`core.learn(n_steps, n_steps_per_fit=1)`, a quiet evaluation of
`n_steps_test` steps, and logs its metrics. -/
def epochEvents : ℕ → ℕ → ℕ → List Event
  | 0, _, _ => []
  | n + 1, nS, nST =>
      epochEvents n nS nST ++
        [Event.learnSteps nS 1, Event.evaluateSteps nST false, Event.epochLog (n + 1)]

/-- The trainer state after the epoch loop. -/
def epochState (st : DriverState) : ℕ → ℕ → DriverState
  | 0, _ => st
  | n + 1, nS => learnModel (epochState st n nS) nS 1

/-- The body of `experiment` once the environment variant `envLabel` has been
selected: configuration, agent construction, then either the
evaluation-only branch (when a checkpoint path is supplied) or the
baseline-evaluation / initial-checkpoint / warm-up / epoch-loop /
final-checkpoint sequence. -/
def experimentBody (algName envType envLabel : String)
    (nEpochs nSteps nStepsTest obsDim actDim : ℕ)
    (agentPath : Option String) : List Event × Option DriverState :=
  let pre : List Event :=
    [Event.seedReset, Event.logInfo ("Experiment Algorithm: " ++ algName),
     Event.envConstructed envLabel,
     Event.networkConfig "actor_mu" [obsDim] [actDim],
     Event.networkConfig "actor_sigma" [obsDim] [actDim],
     Event.networkConfig "critic" [obsDim + actDim] [1],
     Event.agentConstructed]
  match agentPath with
  | some p =>
      (pre ++ [Event.agentLoaded p, Event.evaluateEpisodes 20 true], some ⟨0, 0⟩)
  | none =>
      (pre ++
        [Event.evaluateSteps nStepsTest true, Event.epochLog 0,
         Event.saveAgent ("agents/air_hockey_" ++ envType ++ "_initial.msh"),
         Event.learnSteps initialReplaySize initialReplaySize] ++
        epochEvents nEpochs nSteps nStepsTest ++
        [Event.saveAgent ("agents/air_hockey_" ++ envType ++ ".msh"),
         Event.waitForInput, Event.evaluateEpisodes 5 true],
       some (epochState (learnModel ⟨0, 0⟩ initialReplaySize initialReplaySize)
         nEpochs nSteps))

/-- `experiment(alg, env_type, n_epochs, n_steps, n_steps_test, agent_path)`.
`obsDim`/`actDim` are the selected environment's declared observation/action
dimensionalities (external data, parameters of the model).  An environment
name other than `"hit"` or `"defend"` raises `NotImplementedError` right at
selection, which the model renders as a `none` state with only the two
events that precede the selection. -/
def experiment (algName envType : String) (nEpochs nSteps nStepsTest obsDim actDim : ℕ)
    (agentPath : Option String) : List Event × Option DriverState :=
  if envType = "hit" then
    experimentBody algName envType "AirHockeyHit" nEpochs nSteps nStepsTest
      obsDim actDim agentPath
  else if envType = "defend" then
    experimentBody algName envType "AirHockeyDefend" nEpochs nSteps nStepsTest
      obsDim actDim agentPath
  else
    ([Event.seedReset, Event.logInfo ("Experiment Algorithm: " ++ algName)], none)

/-- The hard-coded `__main__` entry point:
`experiment(alg=SAC, env_type="defend", n_epochs=100, n_steps=4000,
n_steps_test=3000, agent_path="agents/air_hockey_defend.msh")`. -/
def mainRun (obsDim actDim : ℕ) : List Event × Option DriverState :=
  experiment "SAC" "defend" 100 4000 3000 obsDim actDim
    (some "agents/air_hockey_defend.msh")

/-! ## Concrete instances used by witnesses and counterexamples -/

def c1wActor : ActorNetwork :=
  ⟨⟨2, [[0, 0]], [0]⟩, ⟨1, [[0]], [0]⟩, ⟨1, [[0]], [0]⟩⟩

def c1wCritic : CriticNetwork :=
  ⟨⟨3, [[0, 0, 0]], [0]⟩, ⟨1, [[0]], [0]⟩, ⟨1, [[0]], [0]⟩⟩

def c1wObs : Tensor := ⟨[2, 2], [0, 0, 0, 0]⟩

def c1wAct : Tensor := ⟨[2, 1], [0, 0]⟩

def c1xCritic : CriticNetwork :=
  ⟨⟨2, [[0, 0]], [0]⟩, ⟨1, [[0]], [0]⟩, ⟨1, [[0]], [0]⟩⟩

def c1xState : Tensor := ⟨[1, 1], [0]⟩

def c1xAction : Tensor := ⟨[1, 1], [0]⟩

def c1xActor : ActorNetwork :=
  ⟨⟨1, [[0]], [0]⟩, ⟨1, [[0]], [0]⟩, ⟨1, [[0]], [0]⟩⟩

def c1xObs : Tensor := ⟨[2, 1], [0, 0]⟩

def c8Critic : CriticNetwork :=
  ⟨⟨3, [[1, 10, 100]], [0]⟩, ⟨1, [[1]], [0]⟩, ⟨1, [[1]], [0]⟩⟩

def c8State : Tensor := ⟨[1, 2], [1, 0]⟩

def c8StatePermuted : Tensor := ⟨[1, 2], [0, 1]⟩

def c8Action : Tensor := ⟨[1, 1], [5]⟩

def c8StateSplit : Tensor := ⟨[1, 1], [1]⟩

def c8ActionSplit : Tensor := ⟨[1, 2], [0, 5]⟩

def c9Critic : CriticNetwork :=
  ⟨⟨2, [[1, 1]], [0]⟩, ⟨1, [[1]], [0]⟩, ⟨1, [[1]], [0]⟩⟩

def c9Actor : ActorNetwork :=
  ⟨⟨1, [[1]], [0]⟩, ⟨1, [[1]], [0]⟩, ⟨1, [[1]], [0]⟩⟩

def c9In : Tensor := ⟨[2, 1], [2, 3]⟩

/-! ## Helper lemmas -/

theorem option_some_bind {α β : Type} (a : α) (f : α → Option β) :
    (some a).bind f = f a := rfl

theorem chunk_nil (k : ℕ) : chunk k [] = [] := by
  cases k <;> rfl

theorem chunkGo_eq (k : ℕ) :
    ∀ (xs cur : List ℚ) (r : ℕ),
      chunkGo k xs cur r = (cur.reverse ++ xs.take r) :: chunk (k + 1) (xs.drop r)
  | [], cur, r => by
      show [cur.reverse] = (cur.reverse ++ List.take r []) :: chunk (k + 1) (List.drop r [])
      simp [chunk_nil]
  | x :: xs, cur, 0 => by
      have hc : chunk (k + 1) (x :: xs) = chunkGo k xs [x] k := rfl
      show cur.reverse :: chunkGo k xs [x] k =
        (cur.reverse ++ List.take 0 (x :: xs)) :: chunk (k + 1) (List.drop 0 (x :: xs))
      simp only [List.take_zero, List.drop_zero]
      rw [hc]
      simp
  | x :: xs, cur, r + 1 => by
      show chunkGo k xs (x :: cur) r = _
      rw [chunkGo_eq k xs (x :: cur) r]
      simp

theorem chunk_cons (k : ℕ) (x : ℚ) (xs : List ℚ) :
    chunk (k + 1) (x :: xs) = (x :: xs.take k) :: chunk (k + 1) (xs.drop k) := by
  have h : chunk (k + 1) (x :: xs) = chunkGo k xs [x] k := rfl
  rw [h, chunkGo_eq]
  simp

theorem chunk_length (k m : ℕ) : ∀ xs : List ℚ, xs.length = m * (k + 1) →
    (chunk (k + 1) xs).length = m := by
  induction m with
  | zero =>
      intro xs h
      have hx : xs = [] := List.length_eq_zero.mp (by simpa using h)
      subst hx
      rfl
  | succ m ih =>
      intro xs h
      have h1 : (m + 1) * (k + 1) = m * (k + 1) + (k + 1) := by ring
      cases xs with
      | nil =>
          rw [List.length_nil, h1] at h
          exact absurd h.symm (by omega)
      | cons x xs =>
          have hx : xs.length + 1 = (m + 1) * (k + 1) := by simpa using h
          have hlen : (xs.drop k).length = m * (k + 1) := by
            rw [List.length_drop]
            omega
          rw [chunk_cons]
          simp [ih (xs.drop k) hlen]

theorem chunk_mem_length (k m : ℕ) : ∀ (xs c : List ℚ), xs.length = m * (k + 1) →
    c ∈ chunk (k + 1) xs → c.length = k + 1 := by
  induction m with
  | zero =>
      intro xs c h hc
      have hx : xs = [] := List.length_eq_zero.mp (by simpa using h)
      subst hx
      rw [chunk_nil] at hc
      simp at hc
  | succ m ih =>
      intro xs c h hc
      have h1 : (m + 1) * (k + 1) = m * (k + 1) + (k + 1) := by ring
      cases xs with
      | nil =>
          rw [List.length_nil, h1] at h
          exact absurd h.symm (by omega)
      | cons x xs =>
          have hx : xs.length + 1 = (m + 1) * (k + 1) := by simpa using h
          rw [chunk_cons] at hc
          rcases List.mem_cons.mp hc with h2 | h2
          · subst h2
            have hxk : xs.length = m * (k + 1) + k := by omega
            simp [List.length_take, hxk]
          · exact ih (xs.drop k) c (by rw [List.length_drop]; omega) h2

theorem flatten_map_length (f : List ℚ → List ℚ) (m : ℕ) :
    ∀ xs : List (List ℚ), (∀ c ∈ xs, (f c).length = m) →
      ((xs.map f).flatten).length = xs.length * m := by
  intro xs
  induction xs with
  | nil => intro _; simp
  | cons x xs ih =>
      intro h
      simp only [List.map_cons, List.flatten_cons, List.length_append, List.length_cons]
      rw [ih (fun c hc => h c (List.mem_cons_of_mem x hc)), h x (List.mem_cons_self x xs)]
      ring

theorem flatten_zipWith_append_length (d k : ℕ) :
    ∀ xs ys : List (List ℚ), (∀ x ∈ xs, x.length = d) → (∀ y ∈ ys, y.length = k) →
      ((List.zipWith (fun r s => r ++ s) xs ys).flatten).length =
        min xs.length ys.length * (d + k) := by
  intro xs
  induction xs with
  | nil => intro ys _ _; simp
  | cons x xs ih =>
      intro ys hx hy
      cases ys with
      | nil => simp
      | cons y ys =>
          simp only [List.zipWith_cons_cons, List.flatten_cons, List.length_append,
            List.length_cons]
          rw [ih ys (fun c hc => hx c (List.mem_cons_of_mem x hc))
                (fun c hc => hy c (List.mem_cons_of_mem y hc)),
              hx x (List.mem_cons_self x xs), hy y (List.mem_cons_self y ys),
              Nat.succ_min_succ, Nat.succ_eq_add_one]
          ring

theorem Linear.applyVec_length (l : Linear) (x : List ℚ)
    (hb : l.bias.length = l.weight.length) :
    (l.applyVec x).length = l.weight.length := by
  simp [Linear.applyVec, List.length_zipWith, hb]

theorem Linear.apply_mat (l : Linear) (b nIn nOut : ℕ) (t : Tensor)
    (hl : l.hasDims nIn nOut) (hin : 0 < nIn)
    (hs : t.shape = [b, nIn]) (hdl : t.data.length = b * nIn) :
    ∃ u : Tensor, l.apply t = some u ∧ u.shape = [b, nOut] ∧
      u.data.length = b * nOut := by
  obtain ⟨hinF, hwl, hbl, -⟩ := hl
  obtain ⟨sh, da⟩ := t
  dsimp only at hs hdl
  subst hs
  obtain ⟨k, hk⟩ : ∃ k, nIn = k + 1 := ⟨nIn - 1, by omega⟩
  have happ : Linear.apply l ⟨[b, nIn], da⟩ =
      if nIn = l.inF then
        some ⟨[b, l.weight.length], ((chunk l.inF da).map l.applyVec).flatten⟩
      else none := rfl
  refine ⟨⟨[b, l.weight.length], ((chunk l.inF da).map l.applyVec).flatten⟩, ?_, ?_, ?_⟩
  · rw [happ, if_pos hinF.symm]
  · rw [hwl]
  · have hcl : (chunk l.inF da).length = b := by
      rw [hinF, hk]
      exact chunk_length k b da (by rw [← hk]; exact hdl)
    have hlen := flatten_map_length l.applyVec l.weight.length (chunk l.inF da)
      (fun c _ => l.applyVec_length c (hbl.trans hwl.symm))
    dsimp only
    rw [hlen, hcl, hwl]

theorem Tensor.cat2_mat (s a : Tensor) (b d k : ℕ) (hd : 0 < d) (hk : 0 < k)
    (hss : s.shape = [b, d]) (hsd : s.data.length = b * d)
    (has : a.shape = [b, k]) (had : a.data.length = b * k) :
    ∃ u : Tensor, Tensor.cat2 s a = some u ∧ u.shape = [b, d + k] ∧
      u.data.length = b * (d + k) := by
  obtain ⟨ss, sd⟩ := s
  obtain ⟨sa, ad⟩ := a
  dsimp only at hss hsd has had
  subst hss
  subst has
  obtain ⟨d', hd'⟩ : ∃ x, d = x + 1 := ⟨d - 1, by omega⟩
  obtain ⟨k', hk'⟩ : ∃ x, k = x + 1 := ⟨k - 1, by omega⟩
  have hcat : Tensor.cat2 ⟨[b, d], sd⟩ ⟨[b, k], ad⟩ =
      if b = b then
        some ⟨[b, d + k],
          (List.zipWith (fun r s => r ++ s) (chunk d sd) (chunk k ad)).flatten⟩
      else none := rfl
  refine ⟨⟨[b, d + k],
    (List.zipWith (fun r s => r ++ s) (chunk d sd) (chunk k ad)).flatten⟩, ?_, rfl, ?_⟩
  · rw [hcat, if_pos rfl]
  · have hl1 : (chunk d sd).length = b := by
      rw [hd']
      exact chunk_length d' b sd (by rw [← hd']; exact hsd)
    have hl2 : (chunk k ad).length = b := by
      rw [hk']
      exact chunk_length k' b ad (by rw [← hk']; exact had)
    have hm1 : ∀ c ∈ chunk d sd, c.length = d := by
      intro c hc
      rw [hd'] at hc ⊢
      exact chunk_mem_length d' b sd c (by rw [← hd']; exact hsd) hc
    have hm2 : ∀ c ∈ chunk k ad, c.length = k := by
      intro c hc
      rw [hk'] at hc ⊢
      exact chunk_mem_length k' b ad c (by rw [← hk']; exact had) hc
    dsimp only
    rw [flatten_zipWith_append_length d k (chunk d sd) (chunk k ad) hm1 hm2, hl1, hl2,
      Nat.min_self]

theorem Tensor.squeezeDim_mid (t : Tensor) (b d : ℕ) (hs : t.shape = [b, 1, d]) :
    t.squeezeDim 1 = some ⟨[b, d], t.data⟩ := by
  obtain ⟨sh, da⟩ := t
  dsimp only at hs ⊢
  subst hs
  rfl

theorem Tensor.squeezeDim_noop (t : Tensor) (b d : ℕ) (hne : d ≠ 1)
    (hs : t.shape = [b, d]) : t.squeezeDim 1 = some t := by
  obtain ⟨sh, da⟩ := t
  dsimp only at hs
  subst hs
  have h : Tensor.squeezeDim ⟨[b, d], da⟩ 1 =
      if d = 1 then some ⟨[b], da⟩ else some ⟨[b, d], da⟩ := rfl
  rw [h, if_neg hne]

theorem Tensor.squeeze_col (t : Tensor) (b : ℕ) (hb : b ≠ 1) (hs : t.shape = [b, 1]) :
    t.squeeze.shape = [b] := by
  obtain ⟨sh, da⟩ := t
  dsimp only at hs
  subst hs
  have hbne : (b != 1) = true := bne_iff_ne.mpr hb
  simp [Tensor.squeeze, List.filter, hbne]

theorem Tensor.relu_shape (t : Tensor) : t.relu.shape = t.shape := rfl

theorem Tensor.relu_length (t : Tensor) : t.relu.data.length = t.data.length := by
  simp [Tensor.relu]

/-! ## Claim C1: output shapes of the two forward passes -/

/-- C1 (amended): for a valid `(b, obsDim=d, actDim=a, nFeatures=nf)`
configuration, `ActorNetwork.forward` maps a batch of observations — shape
`b × d` with `d ≠ 1`, or `b × 1 × d` with the singleton middle dimension
squeezed — to a `b × a` tensor for *every* batch size, and
`CriticNetwork.forward` maps equal-sized `b × d` state and `b × k` action
batches to a tensor of shape `(b,)` provided `b ≠ 1`: the unqualified
`torch.squeeze` drops the trailing singleton dimension, and at `b = 1` it
would drop the batch dimension too (see the counterexample, which also
shows why the 2-D actor input needs `d ≠ 1`). -/
theorem actor_critic_output_shapes
    (b d k a nf : ℕ) (anet : ActorNetwork) (cnet : CriticNetwork)
    (obs st act : Tensor)
    (hd : 0 < d) (hk : 0 < k) (hnf : 0 < nf)
    (hA : anet.hasDims d nf a) (hC : cnet.hasDims (d + k) nf 1)
    (hobs : obs.shape = [b, 1, d] ∨ (obs.shape = [b, d] ∧ d ≠ 1))
    (hobsd : obs.data.length = b * d)
    (hst : st.shape = [b, d]) (hstd : st.data.length = b * d)
    (hact : act.shape = [b, k]) (hactd : act.data.length = b * k) :
    Option.map Tensor.shape (anet.forward obs) = some [b, a] ∧
    (b ≠ 1 → Option.map Tensor.shape (cnet.forward st act) = some [b]) := by
  obtain ⟨hA1, hA2, hA3⟩ := hA
  obtain ⟨hC1, hC2, hC3⟩ := hC
  constructor
  · have hsq : ∃ t0 : Tensor, obs.squeezeDim 1 = some t0 ∧ t0.shape = [b, d] ∧
        t0.data.length = b * d := by
      rcases hobs with h3 | ⟨h2, hne⟩
      · exact ⟨⟨[b, d], obs.data⟩, Tensor.squeezeDim_mid obs b d h3, rfl, hobsd⟩
      · exact ⟨obs, Tensor.squeezeDim_noop obs b d hne h2, h2, hobsd⟩
    obtain ⟨t0, h0, h0s, h0d⟩ := hsq
    obtain ⟨u1, e1, u1s, u1d⟩ := anet.h1.apply_mat b d nf t0 hA1 hd h0s h0d
    obtain ⟨u2, e2, u2s, u2d⟩ := anet.h2.apply_mat b nf nf u1.relu hA2 hnf
      (by rw [Tensor.relu_shape, u1s]) (by rw [Tensor.relu_length, u1d])
    obtain ⟨u3, e3, u3s, u3d⟩ := anet.h3.apply_mat b nf a u2.relu hA3 hnf
      (by rw [Tensor.relu_shape, u2s]) (by rw [Tensor.relu_length, u2d])
    simp only [ActorNetwork.forward, h0, e1, e2, e3, option_some_bind,
      Option.map_some']
    rw [u3s]
  · intro hb1
    obtain ⟨sa, ec, sas, sad⟩ := Tensor.cat2_mat st act b d k hd hk hst hstd hact hactd
    obtain ⟨u1, e1, u1s, u1d⟩ := cnet.h1.apply_mat b (d + k) nf sa hC1 (by omega) sas sad
    obtain ⟨u2, e2, u2s, u2d⟩ := cnet.h2.apply_mat b nf nf u1.relu hC2 hnf
      (by rw [Tensor.relu_shape, u1s]) (by rw [Tensor.relu_length, u1d])
    obtain ⟨u3, e3, u3s, u3d⟩ := cnet.h3.apply_mat b nf 1 u2.relu hC3 hnf
      (by rw [Tensor.relu_shape, u2s]) (by rw [Tensor.relu_length, u2d])
    simp only [CriticNetwork.forward, ec, e1, e2, e3, option_some_bind,
      Option.map_some']
    rw [Tensor.squeeze_col u3 b hb1 u3s]

/-- C1 witness: the shape theorem evaluated at a concrete valid
configuration (`b = 2`, `d = 2`, `k = 1`, `a = 1`, `nf = 1`), with the
critic's batch-size side condition discharged. -/
theorem actor_critic_output_shapes_witness :
    Option.map Tensor.shape (c1wActor.forward c1wObs) = some [2, 1] ∧
    Option.map Tensor.shape (c1wCritic.forward c1wObs c1wAct) = some [2] := by
  have h := actor_critic_output_shapes 2 2 1 1 1 c1wActor c1wCritic c1wObs c1wObs c1wAct
    (by decide) (by decide) (by decide) (by decide) (by decide)
    (Or.inr ⟨rfl, by decide⟩) (by decide) rfl (by decide) rfl (by decide)
  exact ⟨h.1, h.2 (by decide)⟩

/-- C1 counterexample: the original claim fails at both singleton cases.
At batch size 1 — a valid `(batch_size, obs_dim, action_dim, feature_width)`
tuple `(1, 1, 1, 1)` — the critic's unqualified `torch.squeeze` also removes
the batch dimension, so the output is a 0-dim scalar (shape `[]`), not a
tensor of shape `(1,)`; and at `obs_dim = 1` with a 2-D batch of shape
`(2, 1)`, the actor's `torch.squeeze(state, 1)` removes the feature
dimension, so the first linear layer rejects its input (batch size 2 taken
as a 1-D feature vector) and no `(2, action_dim)` output is produced. -/
theorem critic_scalar_output_at_batch_one :
    Option.map Tensor.shape (c1xCritic.forward c1xState c1xAction) = some [] ∧
    Option.map Tensor.shape (c1xCritic.forward c1xState c1xAction) ≠ some [1] ∧
    Option.map Tensor.shape (c1xActor.forward c1xObs) = none ∧
    Option.map Tensor.shape (c1xActor.forward c1xObs) ≠ some [2, 1] := by
  have hc : Option.map Tensor.shape (c1xCritic.forward c1xState c1xAction) = some [] := by
    norm_num [CriticNetwork.forward, Linear.apply, Linear.applyVec, Tensor.cat2,
      Tensor.relu, Tensor.squeeze, chunk, chunkGo, dot, c1xCritic, c1xState, c1xAction]
  refine ⟨hc, ?_, rfl, by decide⟩
  rw [hc]
  decide

/-! ## Claim C2: parameter initialisation -/

/-- C2 (amended): both constructors initialise every layer's weight matrix
Xavier/Glorot-uniform — relu gain for the two hidden layers, linear gain for
the output layer — while every layer's bias keeps `nn.Linear`'s default
uniform `[-1/√fanIn, 1/√fanIn]` initialisation (the constructors never touch
the biases, and the framework default is not the zero initialiser). -/
theorem network_init_scheme (inS outS : List ℕ) (nf : ℕ) :
    (criticNetworkInit inS outS nf).h1.weightInit =
        ParamInit.xavierUniform GainKind.relu ∧
    (criticNetworkInit inS outS nf).h2.weightInit =
        ParamInit.xavierUniform GainKind.relu ∧
    (criticNetworkInit inS outS nf).h3.weightInit =
        ParamInit.xavierUniform GainKind.linear ∧
    (criticNetworkInit inS outS nf).h1.biasInit = ParamInit.uniformFanInDefault ∧
    (criticNetworkInit inS outS nf).h2.biasInit = ParamInit.uniformFanInDefault ∧
    (criticNetworkInit inS outS nf).h3.biasInit = ParamInit.uniformFanInDefault ∧
    actorNetworkInit inS outS nf = criticNetworkInit inS outS nf ∧
    calculateGainSq GainKind.relu = 2 ∧ calculateGainSq GainKind.linear = 1 :=
  ⟨rfl, rfl, rfl, rfl, rfl, rfl, rfl, rfl, rfl⟩

/-- C2 counterexample: at the concrete configuration
`CriticNetwork(input_shape=(2,), output_shape=(1,), n_features=4)` the bias
initialisation is the framework's default fan-in uniform scheme, so the
claim that every bias vector is initialised to zero is false. -/
theorem network_init_biases_not_zero :
    (criticNetworkInit [2] [1] 4).h1.biasInit = ParamInit.uniformFanInDefault ∧
    ¬ ((criticNetworkInit [2] [1] 4).h1.biasInit = ParamInit.zeros ∧
       (criticNetworkInit [2] [1] 4).h2.biasInit = ParamInit.zeros ∧
       (criticNetworkInit [2] [1] 4).h3.biasInit = ParamInit.zeros) := by
  decide

/-! ## Claim C8: what the critic's output does and does not depend on -/

/-- C8 (amended): for fixed parameters the critic's output depends only on
the rowwise concatenation `state ‖ action` that `forward` builds — so it is
*not* in general invariant to permuting features within the state (or
action) alone, which changes that concatenation (see the counterexample) —
and swapping the concatenation order of state and action changes the output
for some parameters and input. -/
theorem critic_concatenation_dependence :
    (∀ (n : CriticNetwork) (s a s2 a2 : Tensor),
        Tensor.cat2 s a = Tensor.cat2 s2 a2 → n.forward s a = n.forward s2 a2) ∧
    c8Critic.forward c8State c8Action ≠ c8Critic.forward c8Action c8State := by
  constructor
  · intro n s a s2 a2 h
    simp only [CriticNetwork.forward, h]
  · norm_num [CriticNetwork.forward, Linear.apply, Linear.applyVec, Tensor.cat2,
      Tensor.relu, Tensor.squeeze, chunk, chunkGo, dot, c8Critic, c8State, c8Action]

/-- C8 witness: the concatenation-dependence half applied at concrete
tensors whose split point differs but whose concatenation agrees. -/
theorem critic_concatenation_dependence_witness :
    c8Critic.forward c8State c8Action = c8Critic.forward c8StateSplit c8ActionSplit :=
  critic_concatenation_dependence.1 c8Critic c8State c8Action c8StateSplit
    c8ActionSplit (by decide)

/-- C8 counterexample: a concrete critic and a concrete state batch such
that permuting the features within the state vector alone (the permuted
state has the same shape and is a permutation of the original data) changes
the critic's output, so the claimed permutation invariance is false. -/
theorem critic_not_permutation_invariant :
    c8StatePermuted.shape = c8State.shape ∧
    c8StatePermuted.data.Perm c8State.data ∧
    c8Critic.forward c8State c8Action ≠ c8Critic.forward c8StatePermuted c8Action := by
  refine ⟨rfl, ?_, ?_⟩
  · decide
  · norm_num [CriticNetwork.forward, Linear.apply, Linear.applyVec, Tensor.cat2,
      Tensor.relu, Tensor.squeeze, chunk, chunkGo, dot, c8Critic, c8State,
      c8StatePermuted, c8Action]

/-! ## Claim C9: determinism of the forward passes -/

/-- C9: with parameters fixed, both forward passes are deterministic
functions of their inputs — equal parameters and equal inputs give equal
outputs; there is no hidden state in the embedding of `forward`. -/
theorem forward_deterministic (cn cn2 : CriticNetwork) (an an2 : ActorNetwork)
    (s s2 a a2 o o2 : Tensor)
    (hcn : cn = cn2) (han : an = an2) (hs : s = s2) (ha : a = a2) (ho : o = o2) :
    cn.forward s a = cn2.forward s2 a2 ∧ an.forward o = an2.forward o2 := by
  subst hcn han hs ha ho
  exact ⟨rfl, rfl⟩

/-- C9 witness: the determinism theorem applied at a concrete network and
input. -/
theorem forward_deterministic_witness :
    c9Critic.forward c9In c9In = c9Critic.forward c9In c9In ∧
    c9Actor.forward c9In = c9Actor.forward c9In :=
  forward_deterministic c9Critic c9Critic c9Actor c9Actor c9In c9In c9In c9In
    c9In c9In rfl rfl rfl rfl rfl

/-! ## Driver lemmas -/

theorem epochEvents_length (nE nS nST : ℕ) : (epochEvents nE nS nST).length = 3 * nE := by
  induction nE with
  | zero => rfl
  | succ n ih =>
      show (epochEvents n nS nST ++
        [Event.learnSteps nS 1, Event.evaluateSteps nST false,
         Event.epochLog (n + 1)]).length = 3 * (n + 1)
      rw [List.length_append, ih]
      simp only [List.length_cons, List.length_nil]
      omega

theorem networkConfig_not_in_epochEvents (nE nS nST : ℕ) (r : String) (i o : List ℕ) :
    Event.networkConfig r i o ∉ epochEvents nE nS nST := by
  induction nE with
  | zero => simp [epochEvents]
  | succ n ih => simp [epochEvents, List.mem_append, ih]

theorem experimentBody_eval_branch (alg t lbl : String) (nE nS nST oD aD : ℕ)
    (p : String) :
    Event.agentLoaded p ∈ (experimentBody alg t lbl nE nS nST oD aD (some p)).1 ∧
    Event.evaluateEpisodes 20 true ∈
      (experimentBody alg t lbl nE nS nST oD aD (some p)).1 ∧
    (∀ ev ∈ (experimentBody alg t lbl nE nS nST oD aD (some p)).1,
        isLearn ev = false ∧ isSave ev = false ∧ isEpochLog ev = false) ∧
    (experimentBody alg t lbl nE nS nST oD aD (some p)).2 = some ⟨0, 0⟩ := by
  have hh : (experimentBody alg t lbl nE nS nST oD aD (some p)).1 =
      [Event.seedReset, Event.logInfo ("Experiment Algorithm: " ++ alg),
       Event.envConstructed lbl,
       Event.networkConfig "actor_mu" [oD] [aD],
       Event.networkConfig "actor_sigma" [oD] [aD],
       Event.networkConfig "critic" [oD + aD] [1],
       Event.agentConstructed,
       Event.agentLoaded p, Event.evaluateEpisodes 20 true] := rfl
  refine ⟨?_, ?_, ?_, rfl⟩
  · rw [hh]
    simp
  · rw [hh]
    simp
  · intro ev h
    rw [hh] at h
    simp only [List.mem_cons, List.not_mem_nil, or_false] at h
    rcases h with rfl | rfl | rfl | rfl | rfl | rfl | rfl | rfl | rfl <;>
      exact ⟨rfl, rfl, rfl⟩

theorem experimentBody_network_dims (alg t lbl : String) (nE nS nST oD aD : ℕ)
    (p : Option String) :
    Event.networkConfig "actor_mu" [oD] [aD] ∈
      (experimentBody alg t lbl nE nS nST oD aD p).1 ∧
    Event.networkConfig "actor_sigma" [oD] [aD] ∈
      (experimentBody alg t lbl nE nS nST oD aD p).1 ∧
    Event.networkConfig "critic" [oD + aD] [1] ∈
      (experimentBody alg t lbl nE nS nST oD aD p).1 ∧
    ∀ r i o, Event.networkConfig r i o ∈ (experimentBody alg t lbl nE nS nST oD aD p).1 →
      (i = [oD] ∧ o = [aD]) ∨ (i = [oD + aD] ∧ o = [1]) := by
  rcases p with _ | path
  · have hh : (experimentBody alg t lbl nE nS nST oD aD none).1 =
        [Event.seedReset, Event.logInfo ("Experiment Algorithm: " ++ alg),
         Event.envConstructed lbl,
         Event.networkConfig "actor_mu" [oD] [aD],
         Event.networkConfig "actor_sigma" [oD] [aD],
         Event.networkConfig "critic" [oD + aD] [1],
         Event.agentConstructed,
         Event.evaluateSteps nST true, Event.epochLog 0,
         Event.saveAgent ("agents/air_hockey_" ++ t ++ "_initial.msh"),
         Event.learnSteps initialReplaySize initialReplaySize] ++
        epochEvents nE nS nST ++
        [Event.saveAgent ("agents/air_hockey_" ++ t ++ ".msh"),
         Event.waitForInput, Event.evaluateEpisodes 5 true] := by
      simp [experimentBody]
    refine ⟨?_, ?_, ?_, ?_⟩
    · rw [hh]
      simp
    · rw [hh]
      simp
    · rw [hh]
      simp
    · intro r i o h
      rw [hh] at h
      simp only [List.mem_append, List.mem_cons, List.not_mem_nil, or_false] at h
      simp only [networkConfig_not_in_epochEvents, or_false] at h
      simp at h
      rcases h with ⟨rfl, rfl, rfl⟩ | ⟨rfl, rfl, rfl⟩ | ⟨rfl, rfl, rfl⟩
      · exact Or.inl ⟨rfl, rfl⟩
      · exact Or.inl ⟨rfl, rfl⟩
      · exact Or.inr ⟨rfl, rfl⟩
  · have hh : (experimentBody alg t lbl nE nS nST oD aD (some path)).1 =
        [Event.seedReset, Event.logInfo ("Experiment Algorithm: " ++ alg),
         Event.envConstructed lbl,
         Event.networkConfig "actor_mu" [oD] [aD],
         Event.networkConfig "actor_sigma" [oD] [aD],
         Event.networkConfig "critic" [oD + aD] [1],
         Event.agentConstructed,
         Event.agentLoaded path, Event.evaluateEpisodes 20 true] := rfl
    refine ⟨?_, ?_, ?_, ?_⟩
    · rw [hh]
      simp
    · rw [hh]
      simp
    · rw [hh]
      simp
    · intro r i o h
      rw [hh] at h
      simp at h
      rcases h with ⟨rfl, rfl, rfl⟩ | ⟨rfl, rfl, rfl⟩ | ⟨rfl, rfl, rfl⟩
      · exact Or.inl ⟨rfl, rfl⟩
      · exact Or.inl ⟨rfl, rfl⟩
      · exact Or.inr ⟨rfl, rfl⟩

theorem experimentBody_checkpoint_order (alg t lbl : String) (nE nS nST oD aD : ℕ) :
    (experimentBody alg t lbl nE nS nST oD aD none).1.get? 9 =
      some (Event.saveAgent ("agents/air_hockey_" ++ t ++ "_initial.msh")) ∧
    (experimentBody alg t lbl nE nS nST oD aD none).1.get? 10 =
      some (Event.learnSteps initialReplaySize initialReplaySize) ∧
    (experimentBody alg t lbl nE nS nST oD aD none).1.drop (11 + 3 * nE) =
      [Event.saveAgent ("agents/air_hockey_" ++ t ++ ".msh"),
       Event.waitForInput, Event.evaluateEpisodes 5 true] := by
  refine ⟨rfl, rfl, ?_⟩
  have h11 : (experimentBody alg t lbl nE nS nST oD aD none).1.drop 11 =
      epochEvents nE nS nST ++
        [Event.saveAgent ("agents/air_hockey_" ++ t ++ ".msh"),
         Event.waitForInput, Event.evaluateEpisodes 5 true] := rfl
  have hdd : (experimentBody alg t lbl nE nS nST oD aD none).1.drop (11 + 3 * nE) =
      ((experimentBody alg t lbl nE nS nST oD aD none).1.drop 11).drop (3 * nE) :=
    (List.drop_drop (3 * nE) 11 _).symm
  rw [hdd, h11, ← epochEvents_length nE nS nST, List.drop_left]

/-! ## Claim C3: the warm-up phase only collects transitions -/

/-- C3: in a training run (`agent_path = None`, zero epochs) the warm-up
`core.learn(n_steps=5000, n_steps_per_fit=5000)` only collects transitions:
it leaves the replay buffer holding exactly `initialReplaySize = 5000`
transitions and performs zero parameter updates, so the network parameters
are still their initial values. -/
theorem warmup_only_collects (alg t : String) (ht : t = "hit" ∨ t = "defend")
    (nS nST oD aD : ℕ) :
    learnModel ⟨0, 0⟩ initialReplaySize initialReplaySize = ⟨initialReplaySize, 0⟩ ∧
    (experiment alg t 0 nS nST oD aD none).2 = some ⟨initialReplaySize, 0⟩ := by
  have hwarm : learnModel ⟨0, 0⟩ initialReplaySize initialReplaySize =
      ⟨initialReplaySize, 0⟩ := by decide
  refine ⟨hwarm, ?_⟩
  rcases ht with rfl | rfl <;> exact congrArg some hwarm

/-- C3 witness: the warm-up theorem at a concrete training configuration. -/
theorem warmup_only_collects_witness :
    learnModel ⟨0, 0⟩ initialReplaySize initialReplaySize = ⟨initialReplaySize, 0⟩ ∧
    (experiment "SAC" "hit" 0 4000 3000 1 1 none).2 = some ⟨initialReplaySize, 0⟩ :=
  warmup_only_collects "SAC" "hit" (Or.inl rfl) 4000 3000 1 1

/-! ## Claim C4: when the two checkpoints are written -/

/-- C4 (amended): in a training run the "initial" checkpoint
`agents/air_hockey_<env_type>_initial.msh` is written immediately *before*
the warm-up phase, not after it (trace positions 9 and 10), and the final
checkpoint `agents/air_hockey_<env_type>.msh` is written right after the
epoch loop completes (position `11 + 3·n_epochs`, followed only by the
blocking prompt and the demonstration run). -/
theorem checkpoint_order (alg t : String) (ht : t = "hit" ∨ t = "defend")
    (nE nS nST oD aD : ℕ) :
    (experiment alg t nE nS nST oD aD none).1.get? 9 =
      some (Event.saveAgent ("agents/air_hockey_" ++ t ++ "_initial.msh")) ∧
    (experiment alg t nE nS nST oD aD none).1.get? 10 =
      some (Event.learnSteps initialReplaySize initialReplaySize) ∧
    (experiment alg t nE nS nST oD aD none).1.drop (11 + 3 * nE) =
      [Event.saveAgent ("agents/air_hockey_" ++ t ++ ".msh"),
       Event.waitForInput, Event.evaluateEpisodes 5 true] := by
  rcases ht with rfl | rfl
  · exact experimentBody_checkpoint_order alg "hit" "AirHockeyHit" nE nS nST oD aD
  · exact experimentBody_checkpoint_order alg "defend" "AirHockeyDefend" nE nS nST oD aD

/-- C4 witness: the checkpoint-order theorem at a concrete training
configuration with two epochs. -/
theorem checkpoint_order_witness :
    (experiment "SAC" "hit" 2 7 5 3 2 none).1.get? 9 =
      some (Event.saveAgent "agents/air_hockey_hit_initial.msh") ∧
    (experiment "SAC" "hit" 2 7 5 3 2 none).1.get? 10 =
      some (Event.learnSteps initialReplaySize initialReplaySize) ∧
    (experiment "SAC" "hit" 2 7 5 3 2 none).1.drop (11 + 3 * 2) =
      [Event.saveAgent "agents/air_hockey_hit.msh",
       Event.waitForInput, Event.evaluateEpisodes 5 true] :=
  checkpoint_order "SAC" "hit" (Or.inl rfl) 2 7 5 3 2

/-- C4 counterexample: in the concrete training run
`experiment("SAC", "hit", 0, 0, 0)` the unique save of the initial
checkpoint occurs strictly *before* the unique warm-up learn call, so the
claim that the initial checkpoint is written after the warm-up phase has
completed is false. -/
theorem initial_checkpoint_precedes_warmup :
    Event.saveAgent "agents/air_hockey_hit_initial.msh" ∈
      (experiment "SAC" "hit" 0 0 0 1 1 none).1 ∧
    Event.learnSteps 5000 5000 ∈ (experiment "SAC" "hit" 0 0 0 1 1 none).1 ∧
    List.countP (fun e => decide (e = Event.saveAgent "agents/air_hockey_hit_initial.msh"))
      (experiment "SAC" "hit" 0 0 0 1 1 none).1 = 1 ∧
    List.countP (fun e => decide (e = Event.learnSteps 5000 5000))
      (experiment "SAC" "hit" 0 0 0 1 1 none).1 = 1 ∧
    List.findIdx (fun e => decide (e = Event.saveAgent "agents/air_hockey_hit_initial.msh"))
        (experiment "SAC" "hit" 0 0 0 1 1 none).1 <
      List.findIdx (fun e => decide (e = Event.learnSteps 5000 5000))
        (experiment "SAC" "hit" 0 0 0 1 1 none).1 := by
  decide

/-! ## Claim C5: environment selection -/

/-- C5: `"hit"` selects `AirHockeyHit` and `"defend"` selects
`AirHockeyDefend`, while any other environment name raises
`NotImplementedError` before any environment, network configuration, or
agent is constructed — the trace holds only the seed reset and the
algorithm-name log line. -/
theorem env_selection (alg t : String) (nE nS nST oD aD : ℕ) (p : Option String)
    (hne : t ≠ "hit" ∧ t ≠ "defend") :
    (experiment alg t nE nS nST oD aD p).2 = none ∧
    (∀ ev ∈ (experiment alg t nE nS nST oD aD p).1,
        isEnvConstructed ev = false ∧ isNetworkConfig ev = false ∧
          ev ≠ Event.agentConstructed) ∧
    Event.envConstructed "AirHockeyHit" ∈ (experiment alg "hit" nE nS nST oD aD p).1 ∧
    Event.envConstructed "AirHockeyDefend" ∈
      (experiment alg "defend" nE nS nST oD aD p).1 := by
  obtain ⟨h1, h2⟩ := hne
  have he : experiment alg t nE nS nST oD aD p =
      ([Event.seedReset, Event.logInfo ("Experiment Algorithm: " ++ alg)], none) := by
    simp only [experiment, if_neg h1, if_neg h2]
  have hhit : experiment alg "hit" nE nS nST oD aD p =
      experimentBody alg "hit" "AirHockeyHit" nE nS nST oD aD p := rfl
  have hdef : experiment alg "defend" nE nS nST oD aD p =
      experimentBody alg "defend" "AirHockeyDefend" nE nS nST oD aD p := rfl
  refine ⟨by rw [he], ?_, ?_, ?_⟩
  · intro ev h
    rw [he] at h
    rcases List.mem_cons.mp h with rfl | h3
    · exact ⟨rfl, rfl, by simp⟩
    rcases List.mem_cons.mp h3 with rfl | h4
    · exact ⟨rfl, rfl, by simp⟩
    · simp at h4
  · rw [hhit]
    rcases p with _ | path <;> simp [experimentBody]
  · rw [hdef]
    rcases p with _ | path <;> simp [experimentBody]

/-- C5 witness: the selection theorem at the concrete invalid environment
name `"prepare"`. -/
theorem env_selection_witness :
    (experiment "SAC" "prepare" 1 2 3 4 5 none).2 = none ∧
    (∀ ev ∈ (experiment "SAC" "prepare" 1 2 3 4 5 none).1,
        isEnvConstructed ev = false ∧ isNetworkConfig ev = false ∧
          ev ≠ Event.agentConstructed) ∧
    Event.envConstructed "AirHockeyHit" ∈ (experiment "SAC" "hit" 1 2 3 4 5 none).1 ∧
    Event.envConstructed "AirHockeyDefend" ∈
      (experiment "SAC" "defend" 1 2 3 4 5 none).1 :=
  env_selection "SAC" "prepare" 1 2 3 4 5 none ⟨by decide, by decide⟩

/-! ## Claim C6: the evaluation-only branch -/

/-- C6: whenever a checkpoint path is supplied (and the environment name is
valid, which the code checks first), the driver loads the agent from that
path and performs only a rendered 20-episode evaluation before returning:
the trace contains no learn call, no checkpoint save and no epoch-metric
log, and the trainer state shows an untouched replay buffer and zero
parameter updates. -/
theorem evaluation_only_branch (alg t : String) (ht : t = "hit" ∨ t = "defend")
    (nE nS nST oD aD : ℕ) (p : String) :
    Event.agentLoaded p ∈ (experiment alg t nE nS nST oD aD (some p)).1 ∧
    Event.evaluateEpisodes 20 true ∈ (experiment alg t nE nS nST oD aD (some p)).1 ∧
    (∀ ev ∈ (experiment alg t nE nS nST oD aD (some p)).1,
        isLearn ev = false ∧ isSave ev = false ∧ isEpochLog ev = false) ∧
    (experiment alg t nE nS nST oD aD (some p)).2 = some ⟨0, 0⟩ := by
  rcases ht with rfl | rfl
  · exact experimentBody_eval_branch alg "hit" "AirHockeyHit" nE nS nST oD aD p
  · exact experimentBody_eval_branch alg "defend" "AirHockeyDefend" nE nS nST oD aD p

/-- C6 witness: the evaluation-only theorem at a concrete configuration. -/
theorem evaluation_only_branch_witness :
    Event.agentLoaded "chk.msh" ∈ (experiment "SAC" "hit" 1 2 3 4 5 (some "chk.msh")).1 ∧
    Event.evaluateEpisodes 20 true ∈
      (experiment "SAC" "hit" 1 2 3 4 5 (some "chk.msh")).1 ∧
    (∀ ev ∈ (experiment "SAC" "hit" 1 2 3 4 5 (some "chk.msh")).1,
        isLearn ev = false ∧ isSave ev = false ∧ isEpochLog ev = false) ∧
    (experiment "SAC" "hit" 1 2 3 4 5 (some "chk.msh")).2 = some ⟨0, 0⟩ :=
  evaluation_only_branch "SAC" "hit" (Or.inl rfl) 1 2 3 4 5 "chk.msh"

/-! ## Claim C7: network dimensions match the environment -/

/-- C7: in every run with a valid environment name, the two actor
configurations carry input shape equal to the environment's declared
observation-space shape and output shape equal to its action-space shape,
the critic configuration carries input dimensionality `obsDim + actDim` and
output width 1 — and *every* network configuration the driver builds is of
one of those two forms. -/
theorem network_dims_match_env (alg t : String) (ht : t = "hit" ∨ t = "defend")
    (nE nS nST oD aD : ℕ) (p : Option String) :
    Event.networkConfig "actor_mu" [oD] [aD] ∈ (experiment alg t nE nS nST oD aD p).1 ∧
    Event.networkConfig "actor_sigma" [oD] [aD] ∈
      (experiment alg t nE nS nST oD aD p).1 ∧
    Event.networkConfig "critic" [oD + aD] [1] ∈
      (experiment alg t nE nS nST oD aD p).1 ∧
    ∀ r i o, Event.networkConfig r i o ∈ (experiment alg t nE nS nST oD aD p).1 →
      (i = [oD] ∧ o = [aD]) ∨ (i = [oD + aD] ∧ o = [1]) := by
  rcases ht with rfl | rfl
  · exact experimentBody_network_dims alg "hit" "AirHockeyHit" nE nS nST oD aD p
  · exact experimentBody_network_dims alg "defend" "AirHockeyDefend" nE nS nST oD aD p

/-- C7 witness: the dimension-matching theorem at a concrete
configuration. -/
theorem network_dims_match_env_witness :
    Event.networkConfig "actor_mu" [4] [5] ∈ (experiment "SAC" "hit" 1 2 3 4 5 none).1 ∧
    Event.networkConfig "actor_sigma" [4] [5] ∈
      (experiment "SAC" "hit" 1 2 3 4 5 none).1 ∧
    Event.networkConfig "critic" [4 + 5] [1] ∈
      (experiment "SAC" "hit" 1 2 3 4 5 none).1 ∧
    ∀ r i o, Event.networkConfig r i o ∈ (experiment "SAC" "hit" 1 2 3 4 5 none).1 →
      (i = [4] ∧ o = [5]) ∨ (i = [4 + 5] ∧ o = [1]) :=
  network_dims_match_env "SAC" "hit" (Or.inl rfl) 1 2 3 4 5 none

/-! ## Claim C10: the hard-coded entry point only evaluates -/

/-- C10: the hard-coded `__main__` configuration (SAC, env_type "defend",
agent_path "agents/air_hockey_defend.msh") always takes the evaluation-only
branch: the checkpoint is loaded, a rendered 20-episode evaluation runs, and
despite `n_epochs = 100` and non-zero step budgets there is no learn call,
no epoch-metric log and no checkpoint write, and the trainer performs zero
parameter updates. -/
theorem main_config_evaluation_only (oD aD : ℕ) :
    Event.agentLoaded "agents/air_hockey_defend.msh" ∈ (mainRun oD aD).1 ∧
    Event.evaluateEpisodes 20 true ∈ (mainRun oD aD).1 ∧
    (∀ ev ∈ (mainRun oD aD).1,
        isLearn ev = false ∧ isSave ev = false ∧ isEpochLog ev = false) ∧
    (mainRun oD aD).2 = some ⟨0, 0⟩ :=
  experimentBody_eval_branch "SAC" "defend" "AirHockeyDefend" 100 4000 3000 oD aD
    "agents/air_hockey_defend.msh"

end AirHockey
